import Mathlib

/-!
Verification of the Citi Bike dashboard source `st_dashboard_Part_2.py`.

The development is a shallow embedding of the parts of the script that the
specification describes: Python strings become `List Char`, the pandas table
becomes a list of rows (association lists from column names to cell values),
the numeric temperature series becomes a list of rationals, and the Streamlit
control flow (st.error / st.stop / chart rendering) becomes total functions
into explicit result types.
-/

namespace CitiBike

/-! ### Label formatter `shorten` (script lines 189-190)

Python: `def shorten(name, n=28): return name if len(name) <= n else
name[:n-1].rstrip() + '…'`. -/

/-- Characters removed by Python `str.rstrip()` with no argument (the ASCII
whitespace characters; the further Unicode space characters Python also strips
never occur in the data handled here). -/
def isPySpace (c : Char) : Bool :=
  c = ' ' || c = '\t' || c = '\n' || c = '\r' || c = '\x0b' || c = '\x0c'

/-- Python `str.rstrip()`: remove trailing whitespace. -/
def rstripW (l : List Char) : List Char :=
  (l.reverse.dropWhile isPySpace).reverse

/-- Python slice `s[:i]` where `i` may be negative: a negative bound counts
from the end of the string (so `s[:-1]` drops the last character). -/
def pySliceTo (i : Int) (l : List Char) : List Char :=
  if i < 0 then l.take (l.length - i.natAbs) else l.take i.toNat

/-- Script line 190: `name if len(name) <= n else name[:n-1].rstrip() + '…'`. -/
def shorten (name : List Char) (n : Nat) : List Char :=
  if name.length ≤ n then name else rstripW (pySliceTo ((n : Int) - 1) name) ++ ['…']

/-- Modelled from the spec wording of the label-formatter contract: return the
string unchanged if within length, otherwise return the first `n - 1`
characters (natural-number subtraction), trimmed of trailing whitespace,
followed by a single ellipsis marker.  Kept separate from `shorten` so the two
can be compared. -/
def shortenSpec (name : List Char) (n : Nat) : List Char :=
  if name.length ≤ n then name else rstripW (name.take (n - 1)) ++ ['…']

lemma dropWhile_idem (p : α → Bool) (l : List α) :
    (l.dropWhile p).dropWhile p = l.dropWhile p := by
  induction l with
  | nil => rfl
  | cons a l ih =>
    cases h : p a with
    | true => simp [List.dropWhile_cons, h, ih]
    | false => simp [List.dropWhile_cons, h]

lemma rstripW_rstripW (l : List Char) : rstripW (rstripW l) = rstripW l := by
  simp [rstripW, List.reverse_reverse, dropWhile_idem]

lemma length_rstripW_le (l : List Char) : (rstripW l).length ≤ l.length := by
  have h := (List.dropWhile_sublist (l := l.reverse) (p := isPySpace)).length_le
  simpa [rstripW] using h

lemma pySliceTo_of_pos (name : List Char) (n : Nat) (h : 1 ≤ n) :
    pySliceTo ((n : Int) - 1) name = name.take (n - 1) := by
  unfold pySliceTo
  rw [if_neg (by omega)]
  congr 1
  omega

lemma shorten_of_le (s : List Char) (n : Nat) (h : s.length ≤ n) :
    shorten s n = s := by
  simp [shorten, h]

lemma shorten_len_bound (name : List Char) (n : Nat) (h : 1 ≤ n) :
    (shorten name n).length ≤ n := by
  by_cases hl : name.length ≤ n
  · rw [shorten_of_le name n hl]; exact hl
  · simp only [shorten]
    rw [if_neg hl, pySliceTo_of_pos name n h, List.length_append]
    have h1 : (rstripW (name.take (n - 1))).length ≤ (name.take (n - 1)).length :=
      length_rstripW_le _
    have h2 : (name.take (n - 1)).length ≤ n - 1 := by
      rw [List.length_take]; omega
    simp only [List.length_cons, List.length_nil]
    omega

/-- C10: for every string `s` and maximum display length `n ≥ 1`, the label
formatter returns a string of length at most `n`: truncation (trimming
trailing whitespace of the first `n - 1` characters, then appending one
ellipsis character) never exceeds the requested maximum. -/
theorem shorten_length_le (name : List Char) (n : Nat) (h : 1 ≤ n) :
    (shorten name n).length ≤ n :=
  shorten_len_bound name n h

/-- Witness for `shorten_length_le` at a concrete long station name. -/
theorem shorten_length_le_witness :
    (shorten ("South Waterfront Walkway - Sinatra Dr and 1 St".data) 28).length ≤ 28 :=
  shorten_length_le ("South Waterfront Walkway - Sinatra Dr and 1 St".data) 28 (by decide)

/-- C3 counterexample: at maximum display length `n = 0` the code slices
`name[:-1]` (all but the last character, Python negative indexing) while the
claim, read with natural-number `n - 1`, prescribes the first `0` characters;
on the two-character string "ab" the two disagree. -/
theorem shorten_spec_cex : shorten ("ab".data) 0 ≠ shortenSpec ("ab".data) 0 := by
  decide

/-- C3 (amended): for every string and every maximum display length `n ≥ 1`
the formatter agrees with the spec contract (unchanged when within length,
else the first `n - 1` characters trimmed of trailing whitespace followed by a
single ellipsis character); the empty string is returned unchanged for every
`n`. -/
theorem shorten_matches_spec (name : List Char) (n : Nat) :
    (1 ≤ n → shorten name n = shortenSpec name n) ∧ shorten [] n = [] := by
  constructor
  · intro h
    by_cases hl : name.length ≤ n
    · simp [shorten, shortenSpec, hl]
    · simp only [shorten, shortenSpec]
      rw [if_neg hl, if_neg hl, pySliceTo_of_pos name n h]
  · simp [shorten]

/-- Witness for `shorten_matches_spec` on a concrete string and length. -/
theorem shorten_matches_spec_witness :
    shorten ("abcd".data) 3 = shortenSpec ("abcd".data) 3 ∧ shorten [] 3 = [] :=
  ⟨(shorten_matches_spec ("abcd".data) 3).1 (by decide),
   (shorten_matches_spec ("abcd".data) 3).2⟩

/-- C8: the label formatter is idempotent: a string already within length is
returned unchanged, and reapplying the formatter to any of its outputs with
the same maximum length returns the output unchanged. -/
theorem shorten_idem (name : List Char) (n : Nat) :
    (name.length ≤ n → shorten name n = name) ∧
    shorten (shorten name n) n = shorten name n := by
  constructor
  · intro h
    exact shorten_of_le name n h
  · by_cases h : name.length ≤ n
    · rw [shorten_of_le name n h]
      exact shorten_of_le name n h
    · by_cases hn : 1 ≤ n
      · exact shorten_of_le _ n (shorten_len_bound name n hn)
      · have hn0 : n = 0 := by omega
        subst hn0
        have e0 : ∀ l : List Char, pySliceTo (((0 : Nat) : Int) - 1) l = l.dropLast := by
          intro l
          unfold pySliceTo
          rw [if_pos (by omega), List.dropLast_eq_take]
          congr 1
        have e1 : shorten name 0 = rstripW name.dropLast ++ ['…'] := by
          simp only [shorten]
          rw [if_neg h, e0]
        rw [e1]
        have hy : ¬ (rstripW name.dropLast ++ ['…']).length ≤ 0 := by simp
        simp only [shorten]
        rw [if_neg hy, e0, List.dropLast_concat, rstripW_rstripW]

/-- Witness for `shorten_idem`: reapplication at a concrete long name, and the
unchanged-when-short clause at a concrete short name. -/
theorem shorten_idem_witness :
    shorten (shorten ("South Waterfront Walkway - Sinatra Dr and 1 St".data) 28) 28 =
      shorten ("South Waterfront Walkway - Sinatra Dr and 1 St".data) 28 ∧
    shorten ("Grove St PATH".data) 28 = ("Grove St PATH".data) :=
  ⟨(shorten_idem ("South Waterfront Walkway - Sinatra Dr and 1 St".data) 28).2,
   (shorten_idem ("Grove St PATH".data) 28).1 (by decide)⟩

/-! ### Temperature normalization (script lines 86-90)

Python:
`if df['avgTemp'].max() > 100: df['avgTemp_daily'] = df['avgTemp'].diff().fillna(df['avgTemp'])`
`else: df['avgTemp_daily'] = df['avgTemp']`.
Float temperature values are modelled as exact rationals; the claims do not
depend on rounding. -/

/-- Pandas `s.diff().fillna(s)` on a series without missing values: the first
entry of `diff` is undefined and gets filled with the first raw value, every
later entry is the difference with the previous raw value. -/
def diffFill : List ℚ → List ℚ
  | [] => []
  | x :: rest => x :: rest.zipWith (fun a b => a - b) (x :: rest)

/-- Pandas `s.max()`: `⊥` on the empty series, so that the `> 100` test is
false there, exactly as `NaN > 100` is false in pandas. -/
def seriesMax (xs : List ℚ) : WithBot ℚ :=
  xs.maximum

/-- Script lines 87-90: the `avgTemp_daily` column, first differences when the
series looks cumulative (maximum above 100), the raw series otherwise. -/
def avgTempDaily (xs : List ℚ) : List ℚ :=
  if ((100 : ℚ) : WithBot ℚ) < seriesMax xs then diffFill xs else xs

lemma diffFill_length (xs : List ℚ) : (diffFill xs).length = xs.length := by
  cases xs with
  | nil => rfl
  | cons x rest => simp [diffFill]

lemma zipWith_sub_getD (x : ℚ) (rest : List ℚ) :
    ∀ j, j < rest.length →
      (rest.zipWith (fun a b => a - b) (x :: rest)).getD j 0 =
        rest.getD j 0 - (x :: rest).getD j 0 := by
  induction rest generalizing x with
  | nil =>
    intro j hj
    simp at hj
  | cons a rest ih =>
    intro j hj
    cases j with
    | zero => rfl
    | succ k =>
      have hk : k < rest.length := by simpa using hj
      simpa using ih a k hk

/-- C4: the normalization leaves a series unchanged when its maximum is at
most 100; when the maximum exceeds 100 it produces a series of the same
length whose first entry is the first raw value and whose later entries are
the first differences of the raw series. -/
theorem avgTempDaily_spec (xs : List ℚ) :
    (seriesMax xs ≤ ((100 : ℚ) : WithBot ℚ) → avgTempDaily xs = xs) ∧
    (((100 : ℚ) : WithBot ℚ) < seriesMax xs →
      (avgTempDaily xs).length = xs.length ∧
      (avgTempDaily xs).getD 0 0 = xs.getD 0 0 ∧
      ∀ i, 1 ≤ i → i < xs.length →
        (avgTempDaily xs).getD i 0 = xs.getD i 0 - xs.getD (i - 1) 0) := by
  constructor
  · intro h
    rw [avgTempDaily, if_neg (not_lt_of_le h)]
  · intro h
    rw [avgTempDaily, if_pos h]
    refine ⟨diffFill_length xs, ?_, ?_⟩
    · cases xs with
      | nil => rfl
      | cons x rest => rfl
    · intro i h1 h2
      cases xs with
      | nil => simp at h2
      | cons x rest =>
        cases i with
        | zero => omega
        | succ k =>
          have hk : k < rest.length := by
            simp only [List.length_cons] at h2
            omega
          simpa [diffFill] using zipWith_sub_getD x rest k hk

/-- Witness for `avgTempDaily_spec`: a daily series is unchanged, and on a
cumulative-looking series the later entries are first differences. -/
theorem avgTempDaily_spec_witness :
    avgTempDaily [(10 : ℚ), 20] = [(10 : ℚ), 20] ∧
    (avgTempDaily [(5 : ℚ), 200, 150]).getD 2 0 =
      ([(5 : ℚ), 200, 150]).getD 2 0 - ([(5 : ℚ), 200, 150]).getD (2 - 1) 0 :=
  ⟨(avgTempDaily_spec [(10 : ℚ), 20]).1 (by decide),
   ((avgTempDaily_spec [(5 : ℚ), 200, 150]).2 (by decide)).2.2 2 (by decide) (by decide)⟩

/-! ### Table model and the Most Popular Stations pipeline (lines 152-195)

A row of the pandas dataframe is an association list from column names to cell
values; a table carries its column-name list alongside its rows. -/

/-- One trip record: an association list from column names to cell values. -/
abbrev Row := List (String × String)

/-- Reading a cell of a row by column name (absent cells read as ""). -/
def getCell (r : Row) (c : String) : String :=
  match r.find? (fun p => p.1 == c) with
  | some p => p.2
  | none => ""

/-- The in-memory dataframe: column names plus rows. -/
structure Table where
  cols : List String
  rows : List Row
deriving DecidableEq

/-- Line 163: `df.query('season == @season_filter').copy()` keeps the rows
whose season value is a member of the selected list. -/
def filterSeasons (rows : List Row) (sel : List String) : List Row :=
  rows.filter (fun r => sel.contains (getCell r "season"))

/-- Python substring test `needle in hay` on character lists. -/
def listInfix : List Char → List Char → Bool
  | n, [] => n.isEmpty
  | n, c :: t => n.isPrefixOf (c :: t) || listInfix n t

/-- Python substring test `needle in hay` on strings. -/
def substrOf (needle hay : String) : Bool :=
  listInfix needle.data hay.data

/-- Line 175 membership test: `('start' in c and 'station' in c) or
('station' in c and 'start' in c)` (the script spells the same conjunction
twice). -/
def bothStartStation (c : String) : Bool :=
  (substrOf "start" c && substrOf "station" c) ||
    (substrOf "station" c && substrOf "start" c)

/-- Line 179 fallback test: `'station' in c or 'name' in c`. -/
def stationOrName (c : String) : Bool :=
  substrOf "station" c || substrOf "name" c

/-- Lines 175-179: the first column matching the start-and-station heuristic,
else the first column containing "station" or "name", else `none`. -/
def findStationCol (cols : List String) : Option String :=
  match cols.filter bothStartStation with
  | c :: _ => some c
  | [] => cols.find? stationOrName

/-- The group keys of `df1.groupby(station_col_df)`: the distinct values of
the station column, which pandas returns in ascending key order. -/
def groupKeys (col : String) (rows : List Row) : List String :=
  List.insertionSort (· ≤ ·) ((rows.map (fun r => getCell r col)).dedup)

/-- Lines 173 and 185: after `df1['value'] = 1`, the frame
`df1.groupby(station_col_df, as_index=False).agg({'value': 'sum'})` — the
summed indicator column of a group is the number of rows in that group. -/
def dfGroupbyBar (col : String) (rows : List Row) : List (String × Nat) :=
  (groupKeys col rows).map
    (fun k => (k, (rows.filter (fun r => getCell r col == k)).length))

/-- Descending order on the count component, the sort key of `nlargest`. -/
def descBy (a b : String × Nat) : Prop :=
  b.2 ≤ a.2

instance descByDecidable : DecidableRel descBy :=
  fun a b => Nat.decLe b.2 a.2

instance descByTotal : IsTotal (String × Nat) descBy :=
  ⟨fun a b => Nat.le_total b.2 a.2⟩

instance descByTrans : IsTrans (String × Nat) descBy :=
  ⟨fun _ _ _ h1 h2 => Nat.le_trans h2 h1⟩

/-- Line 186: `df_groupby_bar.nlargest(20, 'value')` — the first 20 rows of
the aggregate stably sorted by count descending (pandas default
`keep='first'`). -/
def top20Local (l : List (String × Nat)) : List (String × Nat) :=
  (List.insertionSort descBy l).take 20

/-- Outcome of the Most Popular Stations view: the empty-selection message of
line 166, the missing-station-column error of lines 181-183 (which stops the
view), or a rendered bar chart of the top-20 aggregate. -/
inductive StageResult where
  | noData : StageResult
  | configError : StageResult
  | chart : List (String × Nat) → StageResult
deriving DecidableEq

/-- Lines 163-195: the Most Popular Stations page. The first component of the
result is the shared source table after the stage has run: every statement of
the stage assigns only to the filtered copy `df1` or to frames derived from
it, never to the shared `df`. -/
def mostPopularStations (df : Table) (sel : List String) : Table × StageResult :=
  let df1 := filterSeasons df.rows sel
  if df1.isEmpty then
    (df, .noData)
  else
    let cols1 := df.cols ++ ["value"]
    match findStationCol cols1 with
    | none => (df, .configError)
    | some c => (df, .chart (top20Local (dfGroupbyBar c df1)))

/-- Outcome of a dashboard session with respect to the primary input file
(lines 42-46): a missing file stops the session before any computation;
otherwise the selected view runs on the loaded table. -/
inductive SessionOutcome where
  | fatalMissingFile : SessionOutcome
  | rendered : Table → StageResult → SessionOutcome
deriving DecidableEq

/-- Lines 42-46 followed by the Most Popular Stations view: `pd.read_csv`
either yields a table or raises FileNotFoundError, in which case `st.error`
and `st.stop()` end the session. -/
def session (file : Option Table) (sel : List String) : SessionOutcome :=
  match file with
  | none => .fatalMissingFile
  | some df =>
    let r := mostPopularStations df sel
    .rendered r.1 r.2

/-! ### Helper lemmas on counting and grouping -/

lemma sum_map_add_nat (f g : α → ℕ) (l : List α) :
    (l.map (fun x => f x + g x)).sum = (l.map f).sum + (l.map g).sum := by
  induction l with
  | nil => rfl
  | cons a l ih =>
    simp only [List.map_cons, List.sum_cons, ih]
    omega

lemma sum_map_ite [DecidableEq α] (a : α) (d : List α) (hd : d.Nodup) :
    (d.map (fun x => if a = x then 1 else 0)).sum = if a ∈ d then 1 else 0 := by
  induction d with
  | nil => simp
  | cons b d ih =>
    obtain ⟨hbd, hd2⟩ := List.nodup_cons.mp hd
    by_cases hba : a = b
    · subst hba
      simp [List.sum_cons, ih hd2, hbd]
    · simp [List.sum_cons, ih hd2, hba]

lemma sum_map_count_dedup [DecidableEq α] (l : List α) :
    (l.dedup.map (fun a => l.count a)).sum = l.length := by
  induction l with
  | nil => simp
  | cons a l ih =>
    have hcnt : ∀ x, (a :: l).count x = l.count x + (if a = x then 1 else 0) := by
      intro x
      rw [List.count_cons]
      congr 1
      simp [beq_iff_eq]
    by_cases h : a ∈ l
    · rw [List.dedup_cons_of_mem h,
        List.map_congr_left (fun x _ => hcnt x),
        sum_map_add_nat, ih, sum_map_ite a l.dedup (List.nodup_dedup l)]
      simp [List.mem_dedup, h]
    · rw [List.dedup_cons_of_not_mem h]
      simp only [List.map_cons, List.sum_cons]
      have h1 : (a :: l).count a = l.count a + 1 := by rw [hcnt]; simp
      have h2 : l.count a = 0 := List.count_eq_zero.mpr h
      have h3 : l.dedup.map (fun x => (a :: l).count x) = l.dedup.map (fun x => l.count x) := by
        apply List.map_congr_left
        intro x hx
        rw [hcnt x, if_neg, Nat.add_zero]
        intro hax
        exact h (hax ▸ List.mem_dedup.mp hx)
      rw [h1, h2, h3, ih]
      simp only [List.length_cons]
      omega

lemma filter_count_eq (col : String) (rows : List Row) (k : String) :
    (rows.filter (fun r => getCell r col == k)).length =
      (rows.map (fun r => getCell r col)).count k := by
  rw [← List.countP_eq_length_filter, List.count_eq_countP, List.countP_map]
  rfl

lemma dfGroupbyBar_sum (col : String) (rows : List Row) :
    ((dfGroupbyBar col rows).map Prod.snd).sum = rows.length := by
  have h1 : ((dfGroupbyBar col rows).map Prod.snd).sum =
      (((rows.map (fun r => getCell r col)).dedup).map
        (fun k => (rows.filter (fun r => getCell r col == k)).length)).sum := by
    unfold dfGroupbyBar groupKeys
    rw [List.map_map]
    exact ((List.perm_insertionSort _ _).map _).sum_eq
  rw [h1, List.map_congr_left (fun k _ => filter_count_eq col rows k),
    sum_map_count_dedup]
  exact List.length_map rows _

/-! ### Sample data for the witnesses -/

/-- A small concrete table in the shape of the dashboard CSV. -/
def sampleTable : Table :=
  { cols := ["date", "season", "start_station_name", "bike_rides_daily", "avgTemp"],
    rows := [
      [("season", "Summer"), ("start_station_name", "B")],
      [("season", "Summer"), ("start_station_name", "A")],
      [("season", "Summer"), ("start_station_name", "B")],
      [("season", "Winter"), ("start_station_name", "C")]] }

/-- A concrete table with no station-like column. -/
def noStationTable : Table :=
  { cols := ["date", "season"],
    rows := [[("season", "Summer")]] }

/-! ### Claim theorems about the pipeline -/

/-- C2: for every table, season selection and detected station column, the
counts of the group-by aggregate (before the top-20 truncation) sum to the
number of rows matching the filter. -/
theorem groupby_sum_eq_matching (df : Table) (sel : List String) (c : String)
    (_hc : findStationCol (df.cols ++ ["value"]) = some c) :
    ((dfGroupbyBar c (filterSeasons df.rows sel)).map Prod.snd).sum =
      (filterSeasons df.rows sel).length :=
  dfGroupbyBar_sum c (filterSeasons df.rows sel)

/-- Witness for `groupby_sum_eq_matching` on the sample table. -/
theorem groupby_sum_eq_matching_witness :
    ((dfGroupbyBar "start_station_name"
        (filterSeasons sampleTable.rows ["Summer"])).map Prod.snd).sum =
      (filterSeasons sampleTable.rows ["Summer"]).length :=
  groupby_sum_eq_matching sampleTable ["Summer"] "start_station_name" (by decide)

/-- C1: for a non-empty filtered table the stage returns the chart of the
top-20 aggregate, which holds at most 20 (station, count) pairs sorted by
count in descending order. -/
theorem top20_sorted_le_20 (df : Table) (sel : List String) (c : String)
    (hne : filterSeasons df.rows sel ≠ [])
    (hc : findStationCol (df.cols ++ ["value"]) = some c) :
    (mostPopularStations df sel).2 =
      StageResult.chart (top20Local (dfGroupbyBar c (filterSeasons df.rows sel))) ∧
    (top20Local (dfGroupbyBar c (filterSeasons df.rows sel))).length ≤ 20 ∧
    List.Pairwise descBy (top20Local (dfGroupbyBar c (filterSeasons df.rows sel))) := by
  refine ⟨?_, ?_, ?_⟩
  · have h1 : (filterSeasons df.rows sel).isEmpty = false :=
      List.isEmpty_eq_false.mpr hne
    simp [mostPopularStations, h1, hc]
  · exact List.length_take_le 20 _
  · exact List.Pairwise.sublist (List.take_sublist 20 _)
      (List.sorted_insertionSort descBy _)

/-- Witness for `top20_sorted_le_20` on the sample table. -/
theorem top20_sorted_le_20_witness :
    (mostPopularStations sampleTable ["Summer"]).2 =
      StageResult.chart (top20Local (dfGroupbyBar "start_station_name"
        (filterSeasons sampleTable.rows ["Summer"]))) ∧
    (top20Local (dfGroupbyBar "start_station_name"
        (filterSeasons sampleTable.rows ["Summer"]))).length ≤ 20 ∧
    List.Pairwise descBy (top20Local (dfGroupbyBar "start_station_name"
        (filterSeasons sampleTable.rows ["Summer"]))) :=
  top20_sorted_le_20 sampleTable ["Summer"] "start_station_name" (by decide) (by decide)

/-- C5: a column containing both "start" and "station" is selected when one
exists, else a column containing "station" or "name"; when the filtered table
is non-empty and no such column exists the stage ends in the configuration
error, not in an empty chart. -/
theorem station_col_detection (cols : List String) (df : Table) (sel : List String) :
    ((∃ c ∈ cols, bothStartStation c = true) →
      ∃ c, findStationCol cols = some c ∧ bothStartStation c = true ∧ c ∈ cols) ∧
    ((∀ c ∈ cols, bothStartStation c = false) →
      (∃ c ∈ cols, stationOrName c = true) →
      ∃ c, findStationCol cols = some c ∧ stationOrName c = true ∧ c ∈ cols) ∧
    (filterSeasons df.rows sel ≠ [] →
      findStationCol (df.cols ++ ["value"]) = none →
      (mostPopularStations df sel).2 = StageResult.configError) := by
  refine ⟨?_, ?_, ?_⟩
  · intro h
    cases hf : cols.filter bothStartStation with
    | nil =>
      obtain ⟨c, hcmem, hcb⟩ := h
      exact absurd hcb (List.filter_eq_nil_iff.mp hf c hcmem)
    | cons c t =>
      have hcmem : c ∈ cols.filter bothStartStation := by
        rw [hf]
        exact List.mem_cons_self c t
      exact ⟨c, by simp [findStationCol, hf], (List.mem_filter.mp hcmem).2,
        (List.mem_filter.mp hcmem).1⟩
  · intro hnone hex
    have hf : cols.filter bothStartStation = [] :=
      List.filter_eq_nil_iff.mpr (fun c hc => by simp [hnone c hc])
    cases hfind : cols.find? stationOrName with
    | none =>
      obtain ⟨c, hcmem, hcs⟩ := hex
      exact absurd hcs (List.find?_eq_none.mp hfind c hcmem)
    | some c =>
      exact ⟨c, by simp [findStationCol, hf, hfind], List.find?_some hfind,
        List.mem_of_find?_eq_some hfind⟩
  · intro hne hnone
    have h1 : (filterSeasons df.rows sel).isEmpty = false :=
      List.isEmpty_eq_false.mpr hne
    simp [mostPopularStations, h1, hnone]

/-- Witness for `station_col_detection`: each detection branch at concrete
column lists and the configuration error on a concrete station-less table. -/
theorem station_col_detection_witness :
    (∃ c, findStationCol ["date", "start_station_name"] = some c ∧
      bothStartStation c = true ∧ c ∈ ["date", "start_station_name"]) ∧
    (∃ c, findStationCol ["date", "station_id"] = some c ∧
      stationOrName c = true ∧ c ∈ ["date", "station_id"]) ∧
    (mostPopularStations noStationTable ["Summer"]).2 = StageResult.configError :=
  ⟨(station_col_detection ["date", "start_station_name"] noStationTable ["Summer"]).1
      (by decide),
   (station_col_detection ["date", "station_id"] noStationTable ["Summer"]).2.1
      (by decide) (by decide),
   (station_col_detection [] noStationTable ["Summer"]).2.2 (by decide) (by decide)⟩

/-- C6: a selection matching zero rows — the empty selection in particular —
makes the stage produce the distinct no-data outcome, with no chart and no
aggregation, and that outcome differs from the fatal configuration error. -/
theorem empty_selection_no_data (df : Table) (sel : List String) :
    (filterSeasons df.rows sel = [] →
      (mostPopularStations df sel).2 = StageResult.noData) ∧
    filterSeasons df.rows [] = [] ∧
    (mostPopularStations df []).2 = StageResult.noData ∧
    StageResult.noData ≠ StageResult.configError := by
  have hnil : filterSeasons df.rows [] = [] := by
    simp [filterSeasons]
  have hgen : ∀ s, filterSeasons df.rows s = [] →
      (mostPopularStations df s).2 = StageResult.noData := by
    intro s h
    have h1 : (filterSeasons df.rows s).isEmpty = true := by
      rw [h]
      rfl
    simp [mostPopularStations, h1]
  exact ⟨hgen sel, hnil, hgen [] hnil, by simp⟩

/-- Witness for `empty_selection_no_data`: a selection matching no rows of
the sample table yields the no-data outcome. -/
theorem empty_selection_no_data_witness :
    (mostPopularStations sampleTable ["Fall"]).2 = StageResult.noData :=
  (empty_selection_no_data sampleTable ["Fall"]).1 (by decide)

/-- C7: a missing primary input file ends the session in the fatal outcome,
which renders nothing and carries no computed data. -/
theorem missing_file_fatal (sel : List String) :
    session none sel = SessionOutcome.fatalMissingFile ∧
    ∀ (df : Table) (r : StageResult),
      session none sel ≠ SessionOutcome.rendered df r := by
  refine ⟨rfl, ?_⟩
  intro df r h
  exact SessionOutcome.noConfusion h

/-- C9: the stage never mutates the shared source table: the table it hands
back equals the table it received, for every selection, and the session
renders against that unchanged table. -/
theorem stage_preserves_shared (df : Table) (sel : List String) :
    (mostPopularStations df sel).1 = df ∧
    session (some df) sel =
      SessionOutcome.rendered df (mostPopularStations df sel).2 := by
  have h : (mostPopularStations df sel).1 = df := by
    unfold mostPopularStations
    cases h1 : (filterSeasons df.rows sel).isEmpty
    · cases hc : findStationCol (df.cols ++ ["value"]) <;> simp [h1, hc]
    · simp [h1]
  refine ⟨h, ?_⟩
  simp only [session]
  rw [h]

end CitiBike
